import Mathlib

/-!
Shallow embedding of the todo-api Lambda handlers (createTodo, getTodos,
updateTodo, deleteTodoFunction) and of the DynamoDB point operations they
issue (PutItem, Query, UpdateItem with SET and ReturnValues ALL_NEW,
DeleteItem with ReturnValues ALL_OLD).

Modelling conventions:
- JSON-object request bodies, path parameters and query string parameters are
  association lists of string fields; field access is first-match lookup.
- JavaScript truthiness on extracted string fields: a field is falsy when it
  is absent or the empty string.
- Items of the todos table carry the composite key (userID, taskID) plus an
  association list of the remaining attributes, so that the sparse items an
  unconditional UpdateItem can create on an absent key are representable.
- Timestamps are the strings produced by the two toISOString calls; they are
  passed to createTodo as explicit parameters t1 and t2 (two separate clock
  reads in the source). The generated UUID is likewise a parameter.
- A store-layer failure is modelled by the parameter fail: some e means the
  DynamoDB send call throws an error whose text is e; none means it succeeds.
-/

/-- A JSON-like object: an association list of string-valued fields. -/
abbrev Obj := List (String × String)

/-- Field access on an object: first binding wins, absent gives none. -/
def lookupField (o : Obj) (k : String) : Option String :=
  (o.find? (fun p => p.1 == k)).map (fun p => p.2)

/-- JavaScript truthiness of an extracted optional string field:
absent and the empty string are falsy. -/
def jsTruthy : Option String → Bool
  | none => false
  | some s => !(s == "")

/-- The JavaScript expression a OR b on two optional string fields:
returns a when a is truthy, otherwise b. -/
def jsOr (a b : Option String) : Option String :=
  if jsTruthy a then a else b

/-- An item of the todos table: composite key (userID, taskID) plus the
remaining attributes as an association list. -/
structure Item where
  userID : String
  taskID : String
  attrs : Obj
deriving DecidableEq, Repr

/-- The todos table contents. -/
abbrev Store := List Item

/-- Does an item carry the composite key (u, t)? -/
def keyMatches (u t : String) (i : Item) : Bool :=
  i.userID == u && i.taskID == t

/-- Point read of the item with key (u, t). -/
def findItem (s : Store) (u t : String) : Option Item :=
  s.find? (keyMatches u t)

/-- Removal of the item with key (u, t). -/
def removeItem (s : Store) (u t : String) : Store :=
  s.filter (fun i => !(keyMatches u t i))

/-- A single SET of attribute k to value v: overwrites the first binding of k,
or appends the binding when k is absent. -/
def setAttr : Obj → String → String → Obj
  | [], k, v => [(k, v)]
  | p :: rest, k, v =>
      if p.1 == k then (k, v) :: rest else p :: setAttr rest k v

/-- Applying a SET update expression: each named attribute is set in turn. -/
def applySet (a : Obj) (upds : Obj) : Obj :=
  upds.foldl (fun acc kv => setAttr acc kv.1 kv.2) a

/-- DynamoDB UpdateItem with a SET expression and ReturnValues ALL_NEW:
when the key exists the named attributes are set on the stored item; when it
is absent a new sparse item holding only the key and the SET attributes is
created. Returns the full post-update item and the new store. -/
def updateItemCmd (s : Store) (u t : String) (upds : Obj) : Item × Store :=
  match findItem s u t with
  | some old =>
      let newItem : Item := ⟨u, t, applySet old.attrs upds⟩
      (newItem, s.map (fun i => if keyMatches u t i then newItem else i))
  | none =>
      let newItem : Item := ⟨u, t, applySet [] upds⟩
      (newItem, s ++ [newItem])

/-- DynamoDB DeleteItem with ReturnValues ALL_OLD: returns the prior item
when the key existed (none otherwise) and the store without that key. -/
def deleteItemCmd (s : Store) (u t : String) : Option Item × Store :=
  match findItem s u t with
  | some old => (some old, removeItem s u t)
  | none => (none, s)

/-- DynamoDB Query on the partition key: every item whose userID equals u. -/
def queryCmd (s : Store) (u : String) : List Item :=
  s.filter (fun i => i.userID == u)

/-- DynamoDB PutItem: unconditional write, replacing any item with the same
composite key. -/
def putItemCmd (s : Store) (it : Item) : Store :=
  removeItem s it.userID it.taskID ++ [it]

/-- The JSON response bodies the handlers build. -/
inductive RespBody where
  | msg : String → RespBody
  | msgErr : String → String → RespBody
  | item : Item → RespBody
  | items : List Item → RespBody
deriving DecidableEq, Repr

/-- The response envelope each handler returns. -/
structure Response where
  statusCode : Nat
  body : RespBody
deriving DecidableEq, Repr

/-- The request body after the JSON handling at the top of a handler:
malformed e when JSON parsing throws an error with text e, nullBody when the
parsed value is null or the body field is absent, obj o when it is an
object. -/
inductive ParsedBody where
  | malformed : String → ParsedBody
  | nullBody : ParsedBody
  | obj : Obj → ParsedBody
deriving DecidableEq, Repr

/-- Handler of src/Lambda/createTodo/index.mjs. Parameters: uuid is the
crypto.randomUUID result, t1 and t2 the two successive toISOString clock
reads used for createdAt and updatedAt, fail the store-failure model, body
the parsed request body, store the table contents. A malformed body models
JSON.parse throwing, which the catch block turns into a 500 whose message
concatenates the error text. Validation requires truthy userID and title
fields (the userID spelling only); then the item is built with
status pending, createdAt = t1, updatedAt = t2, description present exactly
when the body supplies it, and written with PutItem. -/
def createTodo (uuid t1 t2 : String) (fail : Option String)
    (body : ParsedBody) (store : Store) : Response × Store :=
  match body with
  | .malformed e => (⟨500, .msg ("Internal server error" ++ e)⟩, store)
  | .nullBody => (⟨400, .msg "Request body is missing"⟩, store)
  | .obj b =>
      match lookupField b "userID", lookupField b "title" with
      | some u, some ti =>
          if u == "" || ti == "" then
            (⟨400, .msg "Missing required fields"⟩, store)
          else
            let it : Item :=
              ⟨u, uuid,
                [("title", ti)] ++
                (match lookupField b "description" with
                 | some d => [("description", d)]
                 | none => []) ++
                [("status", "pending"), ("createdAt", t1), ("updatedAt", t2)]⟩
            match fail with
            | some e => (⟨500, .msg ("Internal server error" ++ e)⟩, store)
            | none => (⟨200, .item it⟩, putItemCmd store it)
      | _, _ => (⟨400, .msg "Missing required fields"⟩, store)

/-- Handler of the getTodos function (src/unnamed/part_001). The owner is
read from the query string under either spelling, userId first then userID;
a falsy result is a 400 before any store access. On success the whole
partition of that owner is returned. -/
def getTodos (fail : Option String) (qs : Obj) (store : Store) :
    Response × Store :=
  match jsOr (lookupField qs "userId") (lookupField qs "userID") with
  | some u =>
      if u == "" then
        (⟨400, .msg "Missing userId in query parameters"⟩, store)
      else
        match fail with
        | some _ => (⟨500, .msg "Internal server error"⟩, store)
        | none => (⟨200, .items (queryCmd store u)⟩, store)
  | none => (⟨400, .msg "Missing userId in query parameters"⟩, store)

/-- The field filtering loop of the updateTodo handler: of the keys title,
description, status, exactly those present in the body (in that order) are
collected into the SET update, with their body values. Other body fields are
never consulted. -/
def filterUpdateFields (b : Obj) : Obj :=
  (["title", "description", "status"] : List String).filterMap
    (fun k => (lookupField b k).map (fun v => (k, v)))

/-- Handler of src/Lambda/updateTodo/index.mjs. taskID comes from the path
parameters, the owner from the query string under either spelling; a falsy
value in either is a 400. An absent or null body makes the field loop throw
on property access, which the catch block turns into a 500 with the fixed
generic message (as does a JSON parse failure or a store failure). An empty
filtered field set is a 400 before any store access. Otherwise an
unconditional UpdateItem with ReturnValues ALL_NEW runs and its result is
returned with status 200. No updatedAt refresh appears in the SET
expression. -/
def updateTodo (fail : Option String) (pathParams qs : Obj)
    (body : ParsedBody) (store : Store) : Response × Store :=
  match lookupField pathParams "taskID",
        jsOr (lookupField qs "userId") (lookupField qs "userID") with
  | some t, some u =>
      if t == "" || u == "" then
        (⟨400, .msg "Missing taskID or userId"⟩, store)
      else
        match body with
        | .malformed _ => (⟨500, .msg "Internal server error"⟩, store)
        | .nullBody => (⟨500, .msg "Internal server error"⟩, store)
        | .obj b =>
            let upds := filterUpdateFields b
            if upds.isEmpty then
              (⟨400, .msg "No valid fields to update"⟩, store)
            else
              match fail with
              | some _ => (⟨500, .msg "Internal server error"⟩, store)
              | none =>
                  let r := updateItemCmd store u t upds
                  (⟨200, .item r.1⟩, r.2)
  | _, _ => (⟨400, .msg "Missing taskID or userId"⟩, store)

/-- Handler of src/Lambda/deleteTodo/index.mjs. Both key parts come from the
path parameters under the userID and taskID spellings only; a falsy value in
either is a 400. DeleteItem with ReturnValues ALL_OLD runs; an absent prior
item is a 404 naming both key parts, a present one a 200 confirmation
naming taskID and userID but none of the deleted attributes. A store
failure is a 500 whose body carries the error text in a separate field. -/
def deleteTodo (fail : Option String) (pathParams : Obj) (store : Store) :
    Response × Store :=
  match lookupField pathParams "userID", lookupField pathParams "taskID" with
  | some u, some t =>
      if u == "" || t == "" then
        (⟨400, .msg "Missing userID or taskID in path parameters"⟩, store)
      else
        match fail with
        | some e =>
            (⟨500, .msgErr "Internal server error while deleting todo" e⟩,
              store)
        | none =>
            match deleteItemCmd store u t with
            | (some _, store2) =>
                (⟨200, .msg ("Todo " ++ t ++ " deleted successfully for user "
                  ++ u)⟩, store2)
            | (none, store2) =>
                (⟨404, .msg ("Todo with userID " ++ u ++ " and taskID " ++ t
                  ++ " not found")⟩, store2)
  | _, _ => (⟨400, .msg "Missing userID or taskID in path parameters"⟩, store)

/-- Does a response body contain the text e verbatim somewhere? -/
def mentionsText : RespBody → String → Prop
  | .msg s, e => ∃ pre post, s = pre ++ e ++ post
  | .msgErr m er, e =>
      (∃ pre post, m = pre ++ e ++ post) ∨ (∃ pre post, er = pre ++ e ++ post)
  | .item _, _ => False
  | .items _, _ => False

/-! Helper lemmas about field lookup, attribute SET application and the
store operations. -/

theorem lookupField_cons (p : String × String) (o : Obj) (k : String) :
    lookupField (p :: o) k = if p.1 == k then some p.2 else lookupField o k := by
  cases h : p.1 == k <;> simp [lookupField, List.find?_cons, h]

theorem lookupField_setAttr_self (a : Obj) (k v : String) :
    lookupField (setAttr a k v) k = some v := by
  induction a with
  | nil => simp [setAttr, lookupField]
  | cons p rest ih =>
      by_cases h : p.1 = k
      · simp [setAttr, h, lookupField_cons]
      · simp [setAttr, beq_eq_false_iff_ne.mpr h, lookupField_cons, ih]

theorem lookupField_setAttr_ne (a : Obj) (k v k2 : String) (h : k ≠ k2) :
    lookupField (setAttr a k v) k2 = lookupField a k2 := by
  induction a with
  | nil => simp [setAttr, lookupField, beq_eq_false_iff_ne.mpr h]
  | cons p rest ih =>
      by_cases h2 : p.1 = k
      · simp [setAttr, h2, lookupField_cons, beq_eq_false_iff_ne.mpr h]
      · simp [setAttr, beq_eq_false_iff_ne.mpr h2, lookupField_cons, ih]

theorem applySet_cons (a : Obj) (q : String × String) (rest : Obj) :
    applySet a (q :: rest) = applySet (setAttr a q.1 q.2) rest := rfl

theorem lookupField_applySet_notMem (upds : Obj) (a : Obj) (k : String)
    (h : ∀ p ∈ upds, p.1 ≠ k) :
    lookupField (applySet a upds) k = lookupField a k := by
  induction upds generalizing a with
  | nil => rfl
  | cons q rest ih =>
      rw [applySet_cons, ih _ (fun p hp => h p (List.mem_cons_of_mem q hp)),
        lookupField_setAttr_ne _ _ _ _ (h q (List.mem_cons_self q rest))]

theorem lookupField_applySet_mem (upds : Obj) (a : Obj) (k v : String)
    (hmem : (k, v) ∈ upds) (hnd : (upds.map Prod.fst).Nodup) :
    lookupField (applySet a upds) k = some v := by
  induction upds generalizing a with
  | nil => cases hmem
  | cons q rest ih =>
      rw [applySet_cons]
      rcases List.mem_cons.mp hmem with heq | hm2
      · have hk : q.1 = k := by rw [← heq]
        have hnotin : ∀ p ∈ rest, p.1 ≠ k := by
          intro p hp hpk
          apply (List.nodup_cons.mp hnd).1
          have hq : q.1 = p.1 := hk.trans hpk.symm
          rw [hq]
          exact List.mem_map_of_mem Prod.fst hp
        rw [lookupField_applySet_notMem rest _ k hnotin, ← heq,
          lookupField_setAttr_self]
      · exact ih _ hm2 (List.nodup_cons.mp hnd).2

theorem findItem_removeItem (s : Store) (u t : String) :
    findItem (removeItem s u t) u t = none := by
  induction s with
  | nil => rfl
  | cons i rest ih =>
      cases h : keyMatches u t i <;>
        simp [removeItem, findItem, List.filter_cons, h, List.find?_cons] at ih ⊢

theorem mem_queryCmd (s : Store) (u : String) (r : Item) :
    r ∈ queryCmd s u ↔ r ∈ s ∧ r.userID = u := by
  simp [queryCmd, List.mem_filter]

theorem mem_filterUpdateFields (b : Obj) (k v : String) :
    (k, v) ∈ filterUpdateFields b ↔
      ((k = "title" ∨ k = "description" ∨ k = "status") ∧
        lookupField b k = some v) := by
  simp only [filterUpdateFields, List.mem_filterMap]
  constructor
  · rintro ⟨k0, hk0, hf⟩
    rcases h0 : lookupField b k0 with _ | v0
    · rw [h0] at hf; cases hf
    · rw [h0] at hf
      simp only [Option.map_some', Option.some.injEq, Prod.mk.injEq] at hf
      obtain ⟨hk, hv⟩ := hf
      subst hk; subst hv
      simp only [List.mem_cons, List.not_mem_nil, or_false] at hk0
      exact ⟨hk0, h0⟩
  · rintro ⟨hk, hv⟩
    refine ⟨k, ?_, by rw [hv]; rfl⟩
    rcases hk with h | h | h <;> simp [h]

theorem filterUpdateFields_keys (b : Obj) (p : String × String)
    (hp : p ∈ filterUpdateFields b) :
    p.1 = "title" ∨ p.1 = "description" ∨ p.1 = "status" :=
  ((mem_filterUpdateFields b p.1 p.2).mp (by simpa using hp)).1

theorem filterUpdateFields_keys_nodup (b : Obj) :
    ((filterUpdateFields b).map Prod.fst).Nodup := by
  unfold filterUpdateFields
  cases h1 : lookupField b "title" <;> cases h2 : lookupField b "description" <;>
    cases h3 : lookupField b "status" <;>
    simp [List.filterMap_cons, h1, h2, h3]

theorem filterUpdateFields_cons_notMem (k v : String) (b : Obj)
    (h : ¬(k = "title" ∨ k = "description" ∨ k = "status")) :
    filterUpdateFields ((k, v) :: b) = filterUpdateFields b := by
  push_neg at h
  obtain ⟨h1, h2, h3⟩ := h
  unfold filterUpdateFields
  simp [List.filterMap_cons, lookupField_cons, h1, h2, h3]

/-- Claim C10: an UpdatePartial request with truthy taskID and owner but an absent
or null request body reaches the property access on the missing body inside
the field filtering loop, which throws and is caught, producing the generic
500 response rather than a 400 validation response; the store is untouched
and no store call is made (the outcome is the same for every store-failure
model). -/
theorem C10_missing_body_gives_500 (fail : Option String) (t u : String)
    (store : Store) (ht : t ≠ "") (hu : u ≠ "") :
    updateTodo fail [("taskID", t)] [("userId", u)] ParsedBody.nullBody store =
      (⟨500, RespBody.msg "Internal server error"⟩, store) := by
  simp [updateTodo, lookupField, jsOr, jsTruthy, ht, hu]

/-- Witness for C10 at taskID t1, owner u1. -/
theorem C10_missing_body_gives_500_witness :
    updateTodo none [("taskID", "t1")] [("userId", "u1")] ParsedBody.nullBody [] =
      (⟨500, RespBody.msg "Internal server error"⟩, []) :=
  C10_missing_body_gives_500 none "t1" "u1" [] (by decide) (by decide)

/-- Claim C5: Delete on a present key removes exactly that record and returns a 200
confirmation naming the owner and taskId and none of the deleted attributes
(the body is the same string for every stored attribute list); Delete on an
absent key returns the 404 not-found response and leaves the store unchanged,
and after a successful delete the key is absent, so a second Delete of the
same key takes the 404 branch rather than reporting success. -/
theorem C5_delete_contract (u t : String) (store : Store)
    (hu : u ≠ "") (ht : t ≠ "") :
    (∀ old, findItem store u t = some old →
        deleteTodo none [("userID", u), ("taskID", t)] store =
          (⟨200, RespBody.msg
              ("Todo " ++ t ++ " deleted successfully for user " ++ u)⟩,
            removeItem store u t)) ∧
    (findItem store u t = none →
        deleteTodo none [("userID", u), ("taskID", t)] store =
          (⟨404, RespBody.msg
              ("Todo with userID " ++ u ++ " and taskID " ++ t ++ " not found")⟩,
            store)) ∧
    findItem (removeItem store u t) u t = none := by
  refine ⟨?_, ?_, findItem_removeItem store u t⟩
  · intro old hold
    simp [deleteTodo, deleteItemCmd, hold, hu, ht, lookupField]
  · intro hnone
    simp [deleteTodo, deleteItemCmd, hnone, hu, ht, lookupField]

/-- Witness for C5: a one-item store, first delete succeeds and removes the
record, delete on the now-absent key is a 404. -/
theorem C5_delete_contract_witness :
    deleteTodo none [("userID", "u1"), ("taskID", "t1")]
        [⟨"u1", "t1", [("title", "a")]⟩] =
      (⟨200, RespBody.msg "Todo t1 deleted successfully for user u1"⟩, []) ∧
    deleteTodo none [("userID", "u1"), ("taskID", "t1")] [] =
      (⟨404, RespBody.msg "Todo with userID u1 and taskID t1 not found"⟩, []) := by
  constructor
  · have h := (C5_delete_contract "u1" "t1" [⟨"u1", "t1", [("title", "a")]⟩]
      (by decide) (by decide)).1 ⟨"u1", "t1", [("title", "a")]⟩ (by decide)
    simpa using h
  · exact (C5_delete_contract "u1" "t1" [] (by decide) (by decide)).2.1 rfl

/-- Claim C7: every validation failure named by the spec — Create with a falsy
owner or title field, UpdatePartial with a falsy taskID or owner, an
UpdatePartial field set that is empty after filtering, ListByOwner without a
truthy owner, Delete with a falsy key part — returns a 400 response and
leaves the store exactly as it was; the outcome is the same for every
store-failure model, so no store call is involved. -/
theorem C7_validation_before_store :
    (∀ uuid t1 t2 fail b store,
        (jsTruthy (lookupField b "userID") = false ∨
         jsTruthy (lookupField b "title") = false) →
        createTodo uuid t1 t2 fail (ParsedBody.obj b) store =
          (⟨400, RespBody.msg "Missing required fields"⟩, store)) ∧
    (∀ fail pp qs body store,
        (jsTruthy (lookupField pp "taskID") = false ∨
         jsTruthy (jsOr (lookupField qs "userId")
            (lookupField qs "userID")) = false) →
        updateTodo fail pp qs body store =
          (⟨400, RespBody.msg "Missing taskID or userId"⟩, store)) ∧
    (∀ fail t u b store, t ≠ "" → u ≠ "" → filterUpdateFields b = [] →
        updateTodo fail [("taskID", t)] [("userId", u)]
            (ParsedBody.obj b) store =
          (⟨400, RespBody.msg "No valid fields to update"⟩, store)) ∧
    (∀ fail qs store,
        jsTruthy (jsOr (lookupField qs "userId")
            (lookupField qs "userID")) = false →
        getTodos fail qs store =
          (⟨400, RespBody.msg "Missing userId in query parameters"⟩, store)) ∧
    (∀ fail pp store,
        (jsTruthy (lookupField pp "userID") = false ∨
         jsTruthy (lookupField pp "taskID") = false) →
        deleteTodo fail pp store =
          (⟨400, RespBody.msg "Missing userID or taskID in path parameters"⟩,
            store)) := by
  refine ⟨?_, ?_, ?_, ?_, ?_⟩
  · intro uuid t1 t2 fail b store hor
    rcases h1 : lookupField b "userID" with _ | u0 <;>
      rcases h2 : lookupField b "title" with _ | t0 <;>
      rw [h1, h2] at hor <;>
      simp [createTodo, h1, h2]
    rcases hor with h | h <;> simp [jsTruthy] at h <;> simp [h]
  · intro fail pp qs body store hor
    rcases h1 : lookupField pp "taskID" with _ | t0 <;>
      rcases h2 : jsOr (lookupField qs "userId") (lookupField qs "userID")
        with _ | u0 <;>
      rw [h1, h2] at hor <;>
      simp [updateTodo, h1, h2]
    rcases hor with h | h <;> simp [jsTruthy] at h <;> simp [h]
  · intro fail t u b store ht hu hempty
    simp [updateTodo, lookupField, jsOr, jsTruthy, ht, hu, hempty]
  · intro fail qs store hor
    rcases h1 : jsOr (lookupField qs "userId") (lookupField qs "userID")
        with _ | u0 <;> rw [h1] at hor <;> simp [getTodos, h1]
    simp [jsTruthy] at hor
    simp [hor]
  · intro fail pp store hor
    rcases h1 : lookupField pp "userID" with _ | u0 <;>
      rcases h2 : lookupField pp "taskID" with _ | t0 <;>
      rw [h1, h2] at hor <;>
      simp [deleteTodo, h1, h2]
    rcases hor with h | h <;> simp [jsTruthy] at h <;> simp [h]

/-- Witness for C7: Create without a title, UpdatePartial without a taskID,
UpdatePartial with an unknown-only body, ListByOwner without an owner and
Delete without a userID all return 400 with the store unchanged. -/
theorem C7_validation_before_store_witness :
    createTodo "id1" "A" "B" none (ParsedBody.obj [("userID", "u1")]) [] =
      (⟨400, RespBody.msg "Missing required fields"⟩, []) ∧
    updateTodo none [] [("userId", "u1")] ParsedBody.nullBody [] =
      (⟨400, RespBody.msg "Missing taskID or userId"⟩, []) ∧
    updateTodo none [("taskID", "t1")] [("userId", "u1")]
        (ParsedBody.obj [("zzz", "1")]) [] =
      (⟨400, RespBody.msg "No valid fields to update"⟩, []) ∧
    getTodos none [] [] =
      (⟨400, RespBody.msg "Missing userId in query parameters"⟩, []) ∧
    deleteTodo none [("taskID", "t1")] [] =
      (⟨400, RespBody.msg "Missing userID or taskID in path parameters"⟩, []) :=
  ⟨C7_validation_before_store.1 "id1" "A" "B" none [("userID", "u1")] []
      (Or.inr (by decide)),
    C7_validation_before_store.2.1 none [] [("userId", "u1")]
      ParsedBody.nullBody [] (Or.inl (by decide)),
    C7_validation_before_store.2.2.1 none "t1" "u1" [("zzz", "1")] []
      (by decide) (by decide) (by decide),
    C7_validation_before_store.2.2.2.1 none [] [] (by decide),
    C7_validation_before_store.2.2.2.2 none [("taskID", "t1")] []
      (Or.inl (by decide))⟩

/-- Claim C8: for every store and truthy owner, ListByOwner returns status 200 with
exactly the items whose partition key equals that owner (membership
characterisation included) and no store mutation; a request with no truthy
owner identifier under either spelling returns the 400 validation response
with an outcome independent of the store-failure model, so no store read is
involved. -/
theorem C8_list_by_owner (u : String) (store : Store) (hu : u ≠ "") :
    getTodos none [("userId", u)] store =
      (⟨200, RespBody.items (queryCmd store u)⟩, store) ∧
    (∀ r : Item, r ∈ queryCmd store u ↔ r ∈ store ∧ r.userID = u) ∧
    (∀ fail qs s2,
        jsTruthy (jsOr (lookupField qs "userId")
            (lookupField qs "userID")) = false →
        getTodos fail qs s2 =
          (⟨400, RespBody.msg "Missing userId in query parameters"⟩, s2)) := by
  refine ⟨?_, fun r => mem_queryCmd store u r, ?_⟩
  · simp [getTodos, lookupField, jsOr, jsTruthy, hu]
  · intro fail qs s2 hor
    rcases h1 : jsOr (lookupField qs "userId") (lookupField qs "userID")
        with _ | u0 <;> rw [h1] at hor <;> simp [getTodos, h1]
    simp [jsTruthy] at hor
    simp [hor]

/-- Witness for C8: a two-owner store queried for u1 returns exactly the u1
record; the empty query string gives the 400. -/
theorem C8_list_by_owner_witness :
    getTodos none [("userId", "u1")] [⟨"u1", "t1", []⟩, ⟨"u2", "t2", []⟩] =
      (⟨200, RespBody.items [⟨"u1", "t1", []⟩]⟩,
        [⟨"u1", "t1", []⟩, ⟨"u2", "t2", []⟩]) ∧
    (⟨"u2", "t2", []⟩ : Item) ∉
      queryCmd [⟨"u1", "t1", []⟩, ⟨"u2", "t2", []⟩] "u1" ∧
    getTodos none [] [⟨"u1", "t1", []⟩] =
      (⟨400, RespBody.msg "Missing userId in query parameters"⟩,
        [⟨"u1", "t1", []⟩]) := by
  have h := C8_list_by_owner "u1" [⟨"u1", "t1", []⟩, ⟨"u2", "t2", []⟩]
    (by decide)
  refine ⟨by simpa using h.1, ?_, h.2.2 none [] [⟨"u1", "t1", []⟩] (by decide)⟩
  intro hmem
  have := (h.2.1 ⟨"u2", "t2", []⟩).mp hmem
  simp at this

/-- Auxiliary congruence: updateTodo depends on an object body only through
the filtered field set. -/
theorem updateTodo_body_congr (fail : Option String) (pp qs : Obj)
    (b b2 : Obj) (store : Store)
    (h : filterUpdateFields b = filterUpdateFields b2) :
    updateTodo fail pp qs (ParsedBody.obj b) store =
      updateTodo fail pp qs (ParsedBody.obj b2) store := by
  rcases h1 : lookupField pp "taskID" with _ | t0 <;>
    rcases h2 : jsOr (lookupField qs "userId") (lookupField qs "userID")
      with _ | u0 <;>
    simp [updateTodo, h1, h2, h]

/-- Claim C9: the UpdatePartial body is filtered to exactly the present fields
among title, description, status (membership characterisation of the SET
list); a field outside that whitelist is ignored, never rejected — prepending
it to the body leaves the outcome unchanged; and when no whitelisted field is
present the handler returns the 400 no-valid-fields response with the store
untouched. -/
theorem C9_update_field_filtering (fail : Option String) (t u : String)
    (b : Obj) (store : Store) (ht : t ≠ "") (hu : u ≠ "") :
    (∀ k v, (k, v) ∈ filterUpdateFields b ↔
        ((k = "title" ∨ k = "description" ∨ k = "status") ∧
          lookupField b k = some v)) ∧
    (∀ k v, ¬(k = "title" ∨ k = "description" ∨ k = "status") →
        updateTodo fail [("taskID", t)] [("userId", u)]
            (ParsedBody.obj ((k, v) :: b)) store =
          updateTodo fail [("taskID", t)] [("userId", u)]
            (ParsedBody.obj b) store) ∧
    (filterUpdateFields b = [] →
        updateTodo fail [("taskID", t)] [("userId", u)]
            (ParsedBody.obj b) store =
          (⟨400, RespBody.msg "No valid fields to update"⟩, store)) := by
  refine ⟨fun k v => mem_filterUpdateFields b k v, ?_, ?_⟩
  · intro k v hk
    exact updateTodo_body_congr fail _ _ _ _ store
      (filterUpdateFields_cons_notMem k v b hk)
  · intro hempty
    simp [updateTodo, lookupField, jsOr, jsTruthy, ht, hu, hempty]

/-- Witness for C9: the unknown field zzz is ignored both alongside a valid
field and alone, where the empty filtered set gives the 400. -/
theorem C9_update_field_filtering_witness :
    ("status", "completed") ∈ filterUpdateFields
      [("zzz", "1"), ("status", "completed")] ∧
    updateTodo none [("taskID", "t1")] [("userId", "u1")]
        (ParsedBody.obj [("zzz", "1"), ("status", "completed")]) [] =
      updateTodo none [("taskID", "t1")] [("userId", "u1")]
        (ParsedBody.obj [("status", "completed")]) [] ∧
    updateTodo none [("taskID", "t1")] [("userId", "u1")]
        (ParsedBody.obj [("zzz", "1")]) [] =
      (⟨400, RespBody.msg "No valid fields to update"⟩, []) := by
  have h := C9_update_field_filtering none "t1" "u1"
    [("status", "completed")] [] (by decide) (by decide)
  have h2 := C9_update_field_filtering none "t1" "u1"
    [("zzz", "1")] [] (by decide) (by decide)
  exact ⟨by decide,
    h.2.1 "zzz" "1" (by decide),
    h2.2.2 (by decide)⟩

/-- Claim C1 counterexample: on the empty store, UpdatePartial of the status field
at the absent key (u1, t1) returns 200 and creates a new sparse record,
instead of surfacing NotFoundError and leaving the store without the key. -/
theorem C1_counterexample :
    (updateTodo none [("taskID", "t1")] [("userId", "u1")]
        (ParsedBody.obj [("status", "completed")]) []).1.statusCode = 200 ∧
    (updateTodo none [("taskID", "t1")] [("userId", "u1")]
        (ParsedBody.obj [("status", "completed")]) []).2 =
      [⟨"u1", "t1", [("status", "completed")]⟩] := by decide

/-- Claim C1 amended: an UpdatePartial whose (owner, taskId) key is absent does not
surface NotFoundError: the unconditional store update upserts, appending a
new sparse record holding the key and exactly the supplied fields, and the
handler returns 200 with that record; it never returns a 500 for a mere
missing key. -/
theorem C1_update_absent_upserts (t u : String) (b : Obj) (store : Store)
    (ht : t ≠ "") (hu : u ≠ "")
    (hne : (filterUpdateFields b).isEmpty = false)
    (habs : findItem store u t = none) :
    updateTodo none [("taskID", t)] [("userId", u)]
        (ParsedBody.obj b) store =
      (⟨200, RespBody.item ⟨u, t, applySet [] (filterUpdateFields b)⟩⟩,
        store ++ [⟨u, t, applySet [] (filterUpdateFields b)⟩]) := by
  simp [updateTodo, updateItemCmd, lookupField, jsOr, jsTruthy,
    ht, hu, hne, habs]

/-- Witness for C1 at the empty store. -/
theorem C1_update_absent_upserts_witness :
    updateTodo none [("taskID", "t1")] [("userId", "u1")]
        (ParsedBody.obj [("status", "completed")]) [] =
      (⟨200, RespBody.item ⟨"u1", "t1", [("status", "completed")]⟩⟩,
        [⟨"u1", "t1", [("status", "completed")]⟩]) := by
  have h := C1_update_absent_upserts "t1" "u1" [("status", "completed")] []
    (by decide) (by decide) (by decide) rfl
  simpa using h

/-- Claim C2 counterexample: updating status on an existing record whose updatedAt
is T0 returns the record with updatedAt still T0 — the handler includes no
updatedAt refresh in the SET expression, so the new updatedAt is not strictly
later than the prior one. -/
theorem C2_counterexample :
    (updateTodo none [("taskID", "t1")] [("userId", "u1")]
        (ParsedBody.obj [("status", "completed")])
        [⟨"u1", "t1", [("title", "a"), ("status", "pending"),
            ("createdAt", "T0"), ("updatedAt", "T0")]⟩]).1 =
      ⟨200, RespBody.item ⟨"u1", "t1", [("title", "a"),
          ("status", "completed"), ("createdAt", "T0"),
          ("updatedAt", "T0")]⟩⟩ := by decide

/-- Claim C2 amended: a successful UpdatePartial on an existing record stores and
returns a record that differs from the prior one exactly in the supplied
fields (a non-empty subset of title, description, status): each supplied
field carries the supplied value, every attribute whose name is not a
supplied field is unchanged, and in particular createdAt, updatedAt and the
key are unchanged — updatedAt is not refreshed at all, rather than being
refreshed to a strictly later value. -/
theorem C2_update_frame (t u : String) (b : Obj) (store : Store) (old : Item)
    (ht : t ≠ "") (hu : u ≠ "")
    (hne : (filterUpdateFields b).isEmpty = false)
    (hfound : findItem store u t = some old) :
    updateTodo none [("taskID", t)] [("userId", u)]
        (ParsedBody.obj b) store =
      (⟨200, RespBody.item
          ⟨u, t, applySet old.attrs (filterUpdateFields b)⟩⟩,
        store.map (fun i => if keyMatches u t i then
          ⟨u, t, applySet old.attrs (filterUpdateFields b)⟩ else i)) ∧
    (∀ k v, (k, v) ∈ filterUpdateFields b →
        lookupField (applySet old.attrs (filterUpdateFields b)) k = some v) ∧
    (∀ k, (∀ p ∈ filterUpdateFields b, p.1 ≠ k) →
        lookupField (applySet old.attrs (filterUpdateFields b)) k =
          lookupField old.attrs k) ∧
    lookupField (applySet old.attrs (filterUpdateFields b)) "updatedAt" =
      lookupField old.attrs "updatedAt" ∧
    lookupField (applySet old.attrs (filterUpdateFields b)) "createdAt" =
      lookupField old.attrs "createdAt" := by
  have hup : ∀ k, k ≠ "title" → k ≠ "description" → k ≠ "status" →
      lookupField (applySet old.attrs (filterUpdateFields b)) k =
        lookupField old.attrs k := by
    intro k hk1 hk2 hk3
    apply lookupField_applySet_notMem
    intro p hp
    rcases filterUpdateFields_keys b p hp with h | h | h <;> rw [h]
    · exact fun hh => hk1 hh.symm
    · exact fun hh => hk2 hh.symm
    · exact fun hh => hk3 hh.symm
  refine ⟨?_, ?_, ?_, hup "updatedAt" (by decide) (by decide) (by decide),
    hup "createdAt" (by decide) (by decide) (by decide)⟩
  · simp [updateTodo, updateItemCmd, lookupField, jsOr, jsTruthy,
      ht, hu, hne, hfound]
  · intro k v hmem
    exact lookupField_applySet_mem _ _ _ _ hmem (filterUpdateFields_keys_nodup b)
  · intro k hk
    exact lookupField_applySet_notMem _ _ _ hk

/-- Witness for C2: updating status of a full record changes status and
leaves title, createdAt and updatedAt as they were. -/
theorem C2_update_frame_witness :
    updateTodo none [("taskID", "t1")] [("userId", "u1")]
        (ParsedBody.obj [("status", "completed")])
        [⟨"u1", "t1", [("title", "a"), ("status", "pending"),
            ("createdAt", "T0"), ("updatedAt", "T0")]⟩] =
      (⟨200, RespBody.item ⟨"u1", "t1", [("title", "a"),
          ("status", "completed"), ("createdAt", "T0"),
          ("updatedAt", "T0")]⟩⟩,
        [⟨"u1", "t1", [("title", "a"), ("status", "completed"),
            ("createdAt", "T0"), ("updatedAt", "T0")]⟩]) ∧
    lookupField [("title", "a"), ("status", "completed"),
        ("createdAt", "T0"), ("updatedAt", "T0")] "updatedAt" =
      lookupField [("title", "a"), ("status", "pending"),
        ("createdAt", "T0"), ("updatedAt", "T0")] "updatedAt" := by
  have h := C2_update_frame "t1" "u1" [("status", "completed")]
    [⟨"u1", "t1", [("title", "a"), ("status", "pending"),
        ("createdAt", "T0"), ("updatedAt", "T0")]⟩]
    ⟨"u1", "t1", [("title", "a"), ("status", "pending"),
        ("createdAt", "T0"), ("updatedAt", "T0")]⟩
    (by decide) (by decide) (by decide) rfl
  exact ⟨by simpa using h.1, by simpa using h.2.2.2.1⟩

/-- Claim C3 counterexample: with the store failing with the text
AccessDeniedException, a valid Create returns a 500 whose message contains
the store error text verbatim, and a valid Delete returns a 500 whose body
carries the error text in a dedicated field — contradicting the claim that
the original store error text is never surfaced. -/
theorem C3_counterexample :
    (createTodo "id1" "A" "B" (some "AccessDeniedException")
        (ParsedBody.obj [("userID", "u1"), ("title", "x")]) []).1.statusCode
      = 500 ∧
    mentionsText (createTodo "id1" "A" "B" (some "AccessDeniedException")
        (ParsedBody.obj [("userID", "u1"), ("title", "x")]) []).1.body
      "AccessDeniedException" ∧
    mentionsText (deleteTodo (some "AccessDeniedException")
        [("userID", "u1"), ("taskID", "t1")] []).1.body
      "AccessDeniedException" := by
  refine ⟨by decide, ?_, ?_⟩
  · have h : (createTodo "id1" "A" "B" (some "AccessDeniedException")
        (ParsedBody.obj [("userID", "u1"), ("title", "x")]) []).1.body =
        RespBody.msg ("Internal server error" ++ "AccessDeniedException") := by
      decide
    rw [h]
    exact ⟨"Internal server error", "", by decide⟩
  · have h : (deleteTodo (some "AccessDeniedException")
        [("userID", "u1"), ("taskID", "t1")] []).1.body =
        RespBody.msgErr "Internal server error while deleting todo"
          "AccessDeniedException" := by decide
    rw [h]
    exact Or.inr ⟨"", "", by decide⟩

/-- Claim C3 amended: store failures are caught and mapped to 500 in every
handler, but only UpdatePartial and ListByOwner keep the body generic and
independent of the error; Create concatenates the error text onto its
message and Delete copies the error message into a body field, so those two
surface the store error text verbatim. The store is unchanged in all four
cases. -/
theorem C3_store_failure_mapping :
    (∀ e t u b store, t ≠ "" → u ≠ "" →
        (filterUpdateFields b).isEmpty = false →
        updateTodo (some e) [("taskID", t)] [("userId", u)]
            (ParsedBody.obj b) store =
          (⟨500, RespBody.msg "Internal server error"⟩, store)) ∧
    (∀ e u store, u ≠ "" →
        getTodos (some e) [("userId", u)] store =
          (⟨500, RespBody.msg "Internal server error"⟩, store)) ∧
    (∀ e uuid t1 t2 u ti store, u ≠ "" → ti ≠ "" →
        createTodo uuid t1 t2 (some e)
            (ParsedBody.obj [("userID", u), ("title", ti)]) store =
          (⟨500, RespBody.msg ("Internal server error" ++ e)⟩, store)) ∧
    (∀ e u t store, u ≠ "" → t ≠ "" →
        deleteTodo (some e) [("userID", u), ("taskID", t)] store =
          (⟨500, RespBody.msgErr "Internal server error while deleting todo"
              e⟩, store)) := by
  refine ⟨?_, ?_, ?_, ?_⟩
  · intro e t u b store ht hu hne
    simp [updateTodo, lookupField, jsOr, jsTruthy, ht, hu, hne]
  · intro e u store hu
    simp [getTodos, lookupField, jsOr, jsTruthy, hu]
  · intro e uuid t1 t2 u ti store hu hti
    simp [createTodo, lookupField, hu, hti]
  · intro e u t store hu ht
    simp [deleteTodo, lookupField, hu, ht]

/-- Witness for C3 amended, with the error text boom at concrete requests. -/
theorem C3_store_failure_mapping_witness :
    updateTodo (some "boom") [("taskID", "t1")] [("userId", "u1")]
        (ParsedBody.obj [("status", "completed")]) [] =
      (⟨500, RespBody.msg "Internal server error"⟩, []) ∧
    getTodos (some "boom") [("userId", "u1")] [] =
      (⟨500, RespBody.msg "Internal server error"⟩, []) ∧
    createTodo "id1" "A" "B" (some "boom")
        (ParsedBody.obj [("userID", "u1"), ("title", "x")]) [] =
      (⟨500, RespBody.msg "Internal server errorboom"⟩, []) ∧
    deleteTodo (some "boom") [("userID", "u1"), ("taskID", "t1")] [] =
      (⟨500, RespBody.msgErr "Internal server error while deleting todo"
          "boom"⟩, []) := by
  refine ⟨C3_store_failure_mapping.1 "boom" "t1" "u1" [("status", "completed")]
      [] (by decide) (by decide) (by decide),
    C3_store_failure_mapping.2.1 "boom" "u1" [] (by decide),
    ?_,
    C3_store_failure_mapping.2.2.2 "boom" "u1" "t1" [] (by decide) (by decide)⟩
  have h := C3_store_failure_mapping.2.2.1 "boom" "id1" "A" "B" "u1" "x" []
    (by decide) (by decide)
  simpa using h

/-- Claim C4 counterexample: on a run where the millisecond clock ticks between the
two toISOString reads of createTodo, the persisted record has createdAt
different from updatedAt, against the claim that they are equal on every
successful Create. -/
theorem C4_counterexample :
    (createTodo "id1" "2024-01-01T00:00:00.000Z" "2024-01-01T00:00:00.001Z"
        none (ParsedBody.obj [("userID", "u1"), ("title", "x")]) []).1 =
      ⟨200, RespBody.item ⟨"u1", "id1", [("title", "x"),
          ("status", "pending"), ("createdAt", "2024-01-01T00:00:00.000Z"),
          ("updatedAt", "2024-01-01T00:00:00.001Z")]⟩⟩ ∧
    ("2024-01-01T00:00:00.000Z" : String) ≠ "2024-01-01T00:00:00.001Z" := by
  decide

/-- Claim C4 amended: a Create with truthy owner and title persists and returns,
for every request body and store, a record with the given owner, title and
description, status pending, the server-generated uuid as its task
identifier (a parameter the request body never influences), createdAt equal
to the first clock read and updatedAt equal to the second — so the two agree
exactly when the reads coincide, and createdAt never exceeds updatedAt under
a monotone clock. -/
theorem C4_create_record_shape (uuid t1 t2 u ti : String) (b : Obj)
    (store : Store)
    (hu : lookupField b "userID" = some u) (hu2 : u ≠ "")
    (ht : lookupField b "title" = some ti) (ht2 : ti ≠ "") :
    ∃ attrs,
      createTodo uuid t1 t2 none (ParsedBody.obj b) store =
        (⟨200, RespBody.item ⟨u, uuid, attrs⟩⟩,
          putItemCmd store ⟨u, uuid, attrs⟩) ∧
      lookupField attrs "title" = some ti ∧
      lookupField attrs "status" = some "pending" ∧
      lookupField attrs "createdAt" = some t1 ∧
      lookupField attrs "updatedAt" = some t2 ∧
      lookupField attrs "description" = lookupField b "description" := by
  rcases hd : lookupField b "description" with _ | d
  · refine ⟨[("title", ti), ("status", "pending"), ("createdAt", t1),
      ("updatedAt", t2)], ?_, ?_⟩
    · simp [createTodo, hu, ht, hu2, ht2, hd]
    · refine ⟨rfl, ?_, ?_, ?_, ?_⟩ <;>
        simp [lookupField, List.find?_cons]
  · refine ⟨[("title", ti), ("description", d), ("status", "pending"),
      ("createdAt", t1), ("updatedAt", t2)], ?_, ?_⟩
    · simp [createTodo, hu, ht, hu2, ht2, hd]
    · refine ⟨rfl, ?_, ?_, ?_, ?_⟩ <;>
        simp [lookupField, List.find?_cons]

/-- Witness for C4 with equal clock reads. -/
theorem C4_create_record_shape_witness :
    ∃ attrs,
      createTodo "id1" "T0" "T0" none
          (ParsedBody.obj [("userID", "u1"), ("title", "x"),
            ("description", "d")]) [] =
        (⟨200, RespBody.item ⟨"u1", "id1", attrs⟩⟩,
          putItemCmd [] ⟨"u1", "id1", attrs⟩) ∧
      lookupField attrs "title" = some "x" ∧
      lookupField attrs "status" = some "pending" ∧
      lookupField attrs "createdAt" = some "T0" ∧
      lookupField attrs "updatedAt" = some "T0" ∧
      lookupField attrs "description" =
        lookupField [("userID", "u1"), ("title", "x"), ("description", "d")]
          "description" :=
  C4_create_record_shape "id1" "T0" "T0" "u1" "x"
    [("userID", "u1"), ("title", "x"), ("description", "d")] []
    rfl (by decide) rfl (by decide)

/-- Claim C6 counterexample: Create rejects a body carrying the owner under the
userId spelling with a 400, while the same body under the userID spelling
succeeds — Create does not tolerate both historically-used names. -/
theorem C6_counterexample :
    (createTodo "id1" "A" "B" none
        (ParsedBody.obj [("userId", "u1"), ("title", "x")]) []).1 =
      ⟨400, RespBody.msg "Missing required fields"⟩ ∧
    (createTodo "id1" "A" "B" none
        (ParsedBody.obj [("userID", "u1"), ("title", "x")]) []).1.statusCode
      = 200 := by decide

/-- Claim C6 amended: only ListByOwner and UpdatePartial accept the owner under
both the userId and userID spellings (with identical behaviour for both);
Create reads the owner only from the userID body field and returns the 400
missing-fields response when it is supplied only as userId, and Delete reads
only the userID path parameter and returns its 400 when the owner arrives
only as userId. -/
theorem C6_owner_spelling_by_op :
    (∀ fail u store,
        getTodos fail [("userId", u)] store =
          getTodos fail [("userID", u)] store) ∧
    (∀ fail t u body store,
        updateTodo fail [("taskID", t)] [("userId", u)] body store =
          updateTodo fail [("taskID", t)] [("userID", u)] body store) ∧
    (∀ uuid t1 t2 fail u ti store,
        createTodo uuid t1 t2 fail
            (ParsedBody.obj [("userId", u), ("title", ti)]) store =
          (⟨400, RespBody.msg "Missing required fields"⟩, store)) ∧
    (∀ fail u t store,
        deleteTodo fail [("userId", u), ("taskID", t)] store =
          (⟨400, RespBody.msg "Missing userID or taskID in path parameters"⟩,
            store)) := by
  refine ⟨?_, ?_, ?_, ?_⟩
  · intro fail u store
    by_cases h : u = "" <;> simp [getTodos, lookupField, jsOr, jsTruthy, h]
  · intro fail t u body store
    by_cases h : u = "" <;> simp [updateTodo, lookupField, jsOr, jsTruthy, h]
  · intro uuid t1 t2 fail u ti store
    simp [createTodo, lookupField]
  · intro fail u t store
    simp [deleteTodo, lookupField]
